import Mathlib

/-!
# Verification of SOCI backend marshaling and session logic

Shallow embedding of two backend source files of the SOCI database
library:

* `src/backends/firebird/common.cpp` — buffer allocation (`allocBuffer`),
  the temporal codec dispatch (`tmEncode` / `tmDecode`), text parameter
  marshaling (`setTextParam` / `getTextParam`) and blob reading
  (`copy_from_blob`);
* `src/backends/postgresql/session.cpp` — the schema search-path
  tokenizer of `get_schema_names`, the connection health check
  `is_connected`, and the `set_tcp_user_timeout` option handler.

Machine integers are modelled as `Nat`/`Int` with explicit wrapping where
the C code can overflow; byte buffers are `List Char` (one `Char` per C
`char`); fallible code returns `Except String _` or pairs an
`Option String` error with the resulting buffer state when the claim is
about partial writes.  Engine-SDK primitives (libpq, the Firebird client
library, and repository code outside the two files above) are opaque to
this layer and are modelled as parameters, so every theorem holds for
every implementation of those primitives.
-/

namespace Soci

namespace Firebird

/-! ## Firebird wire type codes (from `ibase.h`) -/

def SQL_TEXT : Nat := 452
def SQL_VARYING : Nat := 448
def SQL_SHORT : Nat := 500
def SQL_LONG : Nat := 496
def SQL_FLOAT : Nat := 482
def SQL_DOUBLE : Nat := 480
def SQL_TIMESTAMP : Nat := 510
def SQL_BLOB : Nat := 520
def SQL_TYPE_TIME : Nat := 560
def SQL_TYPE_DATE : Nat := 570
def SQL_INT64 : Nat := 580

/-- C `type & ~1`: clear the lowest bit of a (non-negative) type code.
The low bit of `sqltype` is the nullability flag. -/
def andNotOne (n : Nat) : Nat := 2 * (n / 2)

/-- C `static_cast<short>(n)` applied to a non-negative `size_t` value:
reduce modulo 2^16 into the signed range [-32768, 32767]. -/
def toShort (n : Nat) : Int := (((n + 32768) % 65536 : Nat) : Int) - 32768

/-! ## Data model

`XSQLVAR` is the Firebird column/parameter descriptor.  `sqltype` carries
the wire type code (plus nullability bit), `sqllen` the declared length in
bytes (a non-negative 16-bit field in the real struct), `sqlscale` the
decimal scale, and `sqldata` the host buffer bytes. -/

structure XSQLVAR where
  sqltype : Nat
  sqllen : Nat
  sqlscale : Int
  sqldata : List Char
  deriving Repr, DecidableEq

/-- Calendar value, the subset of C `std::tm` that `common.cpp` ever sets:
`setTextParam` zeroes the whole struct with `memset` and then assigns
exactly these six fields, so the remaining `std::tm` fields are always
zero and are omitted.  Fields are `Int` because C assigns
`year - 1900` / `month - 1` of unsigned-short promoted values into the
`int` fields of `std::tm`. -/
structure Tm where
  tm_year : Int
  tm_mon : Int
  tm_mday : Int
  tm_hour : Int
  tm_min : Int
  tm_sec : Int
  deriving Repr, DecidableEq

/-- Size of a C `short` in bytes. -/
def sizeof_short : Nat := 2

/-- Size of C `std::tm` in bytes on the reference LP64 platform (glibc,
x86-64: nine `int` fields, padding, `long tm_gmtoff`, `const char *
tm_zone`).  Any conforming `std::tm` has at least nine `int` fields, so
this constant is at least 36 on every platform. -/
def sizeof_std_tm : Nat := 56

/-- Size of the Firebird engine's native encoded timestamp
`ISC_TIMESTAMP` (two 32-bit `ISC_LONG` fields: date and time). -/
def sizeof_ISC_TIMESTAMP : Nat := 8

/-! ## Opaque engine-SDK primitives

The Firebird client library's encode/decode routines
(`isc_encode_timestamp` &c.) and the decimal codec of `firebird/common.h`
(`parse_decimal<T>` / `format_decimal<T>`, repository code outside the
two embedded files) are collected in a record of abstract functions;
every theorem below is proved for an arbitrary such record. -/

structure FbPrims where
  /-- bytes written by `isc_encode_timestamp` -/
  encTimestamp : Tm → List Char
  /-- bytes written by `isc_encode_sql_time` -/
  encTime : Tm → List Char
  /-- bytes written by `isc_encode_sql_date` -/
  encDate : Tm → List Char
  /-- calendar value produced by `isc_decode_timestamp` -/
  decTimestamp : List Char → Tm
  /-- calendar value produced by `isc_decode_sql_time` -/
  decTime : List Char → Tm
  /-- calendar value produced by `isc_decode_sql_date` -/
  decDate : List Char → Tm
  /-- `parse_decimal<int16_t>(buf, var, s)`: error message or new buffer -/
  parseDec16 : List Char → XSQLVAR → List Char → Option String × List Char
  /-- `parse_decimal<int32_t>(buf, var, s)` -/
  parseDec32 : List Char → XSQLVAR → List Char → Option String × List Char
  /-- `parse_decimal<int64_t>(buf, var, s)` -/
  parseDec64 : List Char → XSQLVAR → List Char → Option String × List Char
  /-- `format_decimal<int16_t>(sqldata, sqlscale)` -/
  fmtDec16 : List Char → Int → String
  /-- `format_decimal<int32_t>(sqldata, sqlscale)` -/
  fmtDec32 : List Char → Int → String
  /-- `format_decimal<int64_t>(sqldata, sqlscale)` -/
  fmtDec64 : List Char → Int → String
  /-- byte image of a `std::tm` value (`memcpy(buf_, &t, sizeof(t))`) -/
  tmBytes : Tm → List Char

/-! ## `allocBuffer` (common.cpp lines 30-49)

The C function allocates `new char[size]`; the model returns the computed
`size`. -/

def allocBuffer (var : XSQLVAR) : Nat :=
  let type := andNotOne var.sqltype
  if type = SQL_VARYING then
    var.sqllen + sizeof_short
  else if type = SQL_TIMESTAMP ∨ type = SQL_TYPE_TIME ∨ type = SQL_TYPE_DATE then
    sizeof_std_tm
  else
    var.sqllen

/-! ## `tmEncode` / `tmDecode` (common.cpp lines 51-91)

The C functions write into / read from a caller buffer; the model returns
the bytes to be written (resp. the decoded calendar value) or the error
message thrown. -/

def tmEncode (p : FbPrims) (type : Nat) (src : Tm) : Except String (List Char) :=
  let t := andNotOne type
  if t = SQL_TIMESTAMP then .ok (p.encTimestamp src)
  else if t = SQL_TYPE_TIME then .ok (p.encTime src)
  else if t = SQL_TYPE_DATE then .ok (p.encDate src)
  else .error ("Unexpected type of date/time field (" ++ toString type ++ ")")

def tmDecode (p : FbPrims) (type : Nat) (src : List Char) : Except String Tm :=
  let t := andNotOne type
  if t = SQL_TIMESTAMP then .ok (p.decTimestamp src)
  else if t = SQL_TYPE_TIME then .ok (p.decTime src)
  else if t = SQL_TYPE_DATE then .ok (p.decDate src)
  else .error ("Unexpected type of date/time field (" ++ toString type ++ ")")

/-! ## A model of `sscanf` for the format strings of common.cpp

`setTextParam` uses `sscanf` with the formats `"%hu-%hu-%hu %hu:%hu:%hu"`,
`"%hu-%hu-%huT%hu:%hu:%hu"`, `"%hu-%hu-%hu"` and `"%hu:%hu:%hu"`.  These
involve three directive kinds: the `%hu` conversion (skip whitespace, an
optional sign, at least one decimal digit, value reduced modulo 2^16), a
literal character (matches exactly itself), and a whitespace directive
(matches any amount of whitespace, possibly none).  `runScanf` returns
the list of assigned values — its length is `sscanf`'s return count for
these formats — together with the unconsumed input. -/

def isScanWs (c : Char) : Bool :=
  c = ' ' ∨ c = '\t' ∨ c = '\n' ∨ c = '\r' ∨ c = '\x0b' ∨ c = '\x0c'

def skipWs (input : List Char) : List Char := input.dropWhile isScanWs

def digitsVal (ds : List Char) : Nat :=
  ds.foldl (fun a c => a * 10 + (c.toNat - 48)) 0

/-- One `%hu` conversion: skip whitespace, optional `+`/`-` sign, one or
more decimal digits; the value is taken modulo 2^16 (a negative input
wraps, as `strtoul` does). -/
def scanHU (input : List Char) : Option (Nat × List Char) :=
  let r0 := skipWs input
  let (neg, r1) :=
    match r0 with
    | '-' :: r => (true, r)
    | '+' :: r => (false, r)
    | r => (false, r)
  let ds := r1.takeWhile Char.isDigit
  if ds.isEmpty then none
  else
    let v := digitsVal ds % 65536
    some (if neg then (65536 - v) % 65536 else v, r1.drop ds.length)

inductive ScanDir where
  | hu
  | lit (c : Char)
  | ws
  deriving Repr, DecidableEq

def runScanf : List ScanDir → List Char → List Nat × List Char
  | [], input => ([], input)
  | .hu :: ds, input =>
    match scanHU input with
    | none => ([], input)
    | some (v, rest) =>
      let (vs, r) := runScanf ds rest
      (v :: vs, r)
  | .lit c :: ds, input =>
    match input with
    | [] => ([], input)
    | c' :: rest => if c' = c then runScanf ds rest else ([], input)
  | .ws :: ds, input => runScanf ds (skipWs input)

/-- Format `"%hu-%hu-%hu %hu:%hu:%hu"`. -/
def fmtTsSpace : List ScanDir :=
  [.hu, .lit '-', .hu, .lit '-', .hu, .ws, .hu, .lit ':', .hu, .lit ':', .hu]

/-- Format `"%hu-%hu-%huT%hu:%hu:%hu"`. -/
def fmtTsT : List ScanDir :=
  [.hu, .lit '-', .hu, .lit '-', .hu, .lit 'T', .hu, .lit ':', .hu, .lit ':', .hu]

/-- Format `"%hu-%hu-%hu"`. -/
def fmtDate : List ScanDir := [.hu, .lit '-', .hu, .lit '-', .hu]

/-- Format `"%hu:%hu:%hu"`. -/
def fmtTime : List ScanDir := [.hu, .lit ':', .hu, .lit ':', .hu]

/-- Build the `std::tm` that setTextParam assembles after a date/time
scan: the struct is zeroed by `memset`, then
`tm_year = year - 1900`, `tm_mon = month - 1` (computed in `int` after
unsigned-short promotion), and the remaining fields assigned directly. -/
def mkTmOfScan (y mo d h mi s : Nat) : Tm :=
  { tm_year := (y : Int) - 1900
    tm_mon := (mo : Int) - 1
    tm_mday := (d : Int)
    tm_hour := (h : Int)
    tm_min := (mi : Int)
    tm_sec := (s : Int) }

/-- The timestamp/date text-parsing cascade of `setTextParam`
(common.cpp lines 140-161): the three patterns are tried in order; a
pattern applies only when `sscanf` assigns all of its conversions; when
only the date-only pattern matches, hour, minute and second are zero. -/
def parseTimestampText (s : List Char) : Except String Tm :=
  let r1 := (runScanf fmtTsSpace s).1
  if r1.length = 6 then
    .ok (mkTmOfScan (r1.getD 0 0) (r1.getD 1 0) (r1.getD 2 0)
      (r1.getD 3 0) (r1.getD 4 0) (r1.getD 5 0))
  else
    let r2 := (runScanf fmtTsT s).1
    if r2.length = 6 then
      .ok (mkTmOfScan (r2.getD 0 0) (r2.getD 1 0) (r2.getD 2 0)
        (r2.getD 3 0) (r2.getD 4 0) (r2.getD 5 0))
    else
      let r3 := (runScanf fmtDate s).1
      if r3.length = 3 then
        .ok (mkTmOfScan (r3.getD 0 0) (r3.getD 1 0) (r3.getD 2 0) 0 0 0)
      else
        .error "Could not parse timestamp value."

/-- The time-only text parsing of `setTextParam` (common.cpp lines
167-176): the struct is zeroed, so year/month/day stay zero. -/
def parseTimeText (s : List Char) : Except String Tm :=
  let r := (runScanf fmtTime s).1
  if r.length = 3 then
    .ok { tm_year := 0, tm_mon := 0, tm_mday := 0
          tm_hour := (r.getD 0 0 : Int), tm_min := (r.getD 1 0 : Int)
          tm_sec := (r.getD 2 0 : Int) }
  else
    .error "Could not parse timestamp value."

/-! ## `setTextParam` (common.cpp lines 93-184) -/

/-- `memcpy(buf + off, bs, bs.length)`: overwrite `bs.length` bytes of
`buf` starting at offset `off`. -/
def writeBytes (buf : List Char) (off : Nat) (bs : List Char) : List Char :=
  buf.take off ++ bs ++ buf.drop (off + bs.length)

/-- Little-endian byte image of the 16-bit pattern of a short whose
unsigned reinterpretation is `n % 65536` (`memcpy(buf_, &sz,
sizeof(short))` on the little-endian reference platform). -/
def shortBytes (n : Nat) : List Char :=
  [Char.ofNat (n % 256), Char.ofNat (n / 256 % 256)]

/-- The "value too long" message of common.cpp lines 102-105. -/
def tooLongMsg (s : List Char) (size : Nat) (sqllen : Nat) : String :=
  "Value \"" ++ String.mk s ++ "\" is too long (" ++ toString size
    ++ " bytes) to be stored in column of size " ++ toString sqllen ++ " bytes"

/-- `setTextParam(s, size, buf_, var)` with `size = s.length` (the caller
passes the byte count of `s`).  The C function writes through `buf_` and
throws on failure; the model returns the error message (if any) paired
with the buffer contents after the call, so that partial-write behaviour
is observable.  `static_cast<short>(size)` is modelled by `toShort`; a
negative `sz` would make the C `memcpy` length wrap to a huge `size_t`
(undefined behaviour), which the model clamps to zero — unreachable for
any well-formed descriptor, since the preceding length check bounds
`size` by the 16-bit `sqllen` field. -/
def setTextParam (p : FbPrims) (s : List Char) (buf : List Char)
    (var : XSQLVAR) : Option String × List Char :=
  let sqltype := andNotOne var.sqltype
  if sqltype = SQL_VARYING ∨ sqltype = SQL_TEXT then
    if s.length > var.sqllen then
      (some (tooLongMsg s s.length var.sqllen), buf)
    else
      let sz := toShort s.length
      if sqltype = SQL_VARYING then
        (none, writeBytes (writeBytes buf 0 (shortBytes s.length)) sizeof_short
          (s.take sz.toNat))
      else
        let buf1 := writeBytes buf 0 (s.take sz.toNat)
        if sz < (var.sqllen : Int) then
          (none, writeBytes buf1 sz.toNat
            (List.replicate (var.sqllen - sz.toNat) ' '))
        else
          (none, buf1)
  else if sqltype = SQL_SHORT then
    p.parseDec16 buf var s
  else if sqltype = SQL_LONG then
    p.parseDec32 buf var s
  else if sqltype = SQL_INT64 then
    p.parseDec64 buf var s
  else if sqltype = SQL_TIMESTAMP ∨ sqltype = SQL_TYPE_DATE then
    match parseTimestampText s with
    | .error e => (some e, buf)
    | .ok t =>
      let buf1 := writeBytes buf 0 (p.tmBytes t)
      match tmEncode p var.sqltype t with
      | .error e => (some e, buf1)
      | .ok enc => (none, writeBytes buf1 0 enc)
  else if sqltype = SQL_TYPE_TIME then
    match parseTimeText s with
    | .error e => (some e, buf)
    | .ok t =>
      let buf1 := writeBytes buf 0 (p.tmBytes t)
      match tmEncode p var.sqltype t with
      | .error e => (some e, buf1)
      | .ok enc => (none, writeBytes buf1 0 enc)
  else
    (some "Unexpected string type.", buf)

/-! ## `getTextParam` (common.cpp lines 186-222) -/

/-- Read a short from the first two buffer bytes
(`*reinterpret_cast<short*>(var->sqldata)`, little-endian reference
platform; missing bytes read as zero). -/
def readShort (bs : List Char) : Int :=
  match bs with
  | c0 :: c1 :: _ => toShort (c0.toNat % 256 + 256 * (c1.toNat % 256))
  | [c0] => toShort (c0.toNat % 256)
  | [] => 0

def getTextParam (p : FbPrims) (var : XSQLVAR) : Except String String :=
  let t := andNotOne var.sqltype
  if t = SQL_VARYING then
    let size := readShort var.sqldata
    .ok (String.mk ((var.sqldata.drop sizeof_short).take size.toNat))
  else if t = SQL_TEXT then
    .ok (String.mk (var.sqldata.take var.sqllen))
  else if t = SQL_SHORT then
    .ok (p.fmtDec16 var.sqldata var.sqlscale)
  else if t = SQL_LONG then
    .ok (p.fmtDec32 var.sqldata var.sqlscale)
  else if t = SQL_INT64 then
    .ok (p.fmtDec64 var.sqldata var.sqlscale)
  else
    .error "Unexpected string type"

/-! ## `copy_from_blob` (common.cpp lines 224-245)

The blob backend (`firebird_blob_backend`, repository code outside the
embedded file) is opaque: a blob is modelled by the declared total length
the engine reports for it (`get_len`) and the bytes `read_from_start`
actually delivers. -/

structure FbBlob where
  /-- `blob.get_len()`: declared total length of the large object -/
  getLen : Nat
  /-- bytes actually delivered by `blob.read_from_start(&out[0], len_total)`;
  its length is the returned `len_read` -/
  delivered : List Char

def copy_from_blob (b : FbBlob) : Except String String :=
  let lenTotal := b.getLen
  let out0 := List.replicate lenTotal (Char.ofNat 0)
  let lenRead := b.delivered.length
  let out := (writeBytes out0 0 b.delivered).take lenTotal
  if lenRead ≠ lenTotal then
    .error ("Read " ++ toString lenRead ++ " bytes instead of expected "
      ++ toString lenTotal ++ " from Firebird text blob object")
  else
    .ok (String.mk out)

end Firebird

namespace Postgresql

/-! ## The search-path tokenizer of `get_schema_names`
(session.cpp lines 191-218)

The C loop consumes `search_path_content` character by character with a
`quoted` flag: `"` toggles the flag (and is not kept), an unquoted `,`
ends the current schema name, an unquoted space is skipped, and every
other character — including `,` and space while `quoted` is set — is
appended to the current name. -/

/-- One iteration of the `while` loop: the `switch` over the current
character, acting on the state (quoted flag, current schema, collected
names). -/
def schemaStep (quoted : Bool) (schema : List Char)
    (acc : List (List Char)) (c : Char) :
    Bool × List Char × List (List Char) :=
  if c = '"' then
    (!quoted, schema, acc)
  else if (c = ',' ∨ c = ' ') ∧ ¬quoted then
    if c = ',' then (quoted, [], acc ++ [schema]) else (quoted, schema, acc)
  else
    (quoted, schema ++ [c], acc)

def tokenizeLoop : Bool → List Char → List (List Char) → List Char →
    List Char × List (List Char)
  | _, schema, acc, [] => (schema, acc)
  | quoted, schema, acc, c :: rest =>
    let st := schemaStep quoted schema acc c
    tokenizeLoop st.1 st.2.1 st.2.2 rest

/-- The whole tokenization pass, including the trailing
`if (!schema.empty()) schema_names.push_back(schema)`. -/
def tokenizeSearchPath (s : List Char) : List (List Char) :=
  let st := tokenizeLoop false [] [] s
  if st.1.isEmpty then st.2 else st.2 ++ [st.1]

/-- `quote(conn, s)` (session.cpp lines 161-176): wrap the
`PQescapeStringConn` output in single quotes; when escaping reports an
error (`error_code > 0`) the escaped length is forced to 0 and the result
is `''`.  The escaping itself is a libpq primitive, passed in as `esc`
(`none` models `error_code > 0`). -/
def quote (esc : String → Option String) (s : String) : String :=
  match esc s with
  | some e => "'" ++ e ++ "'"
  | none => "''"

/-- `get_schema_names` (session.cpp lines 179-239), parameterized by the
values the three engine round-trips produce: `searchPath` is the value of
`SHOW search_path` (empty when the query returns no rows or an empty
value), `currentUser` the value of `SELECT current_user` (`none` when
that query returns no rows, in which case the `$user` entry is left
unsubstituted), and `esc` the libpq string-escaping primitive used by
`quote`. -/
def get_schema_names (searchPath : String) (currentUser : Option String)
    (esc : String → Option String) : List String :=
  let content := if searchPath.isEmpty then "\"$user\", public" else searchPath
  let names := (tokenizeSearchPath content.data).map String.mk
  names.map (fun n =>
    let n2 := if n = "$user" then
        match currentUser with
        | some u => u
        | none => n
      else n
    quote esc n2)

/-! ## `is_connected` (session.cpp lines 398-410)

A libpq connection is opaque; the model records the two observations
`is_connected` can make: `PQstatus` before the ping and `PQstatus` after
`PQexec(conn_, "/* ping */")` has been issued.  `CONNECTION_OK` is the
libpq status value 0.  The result is paired with the list of commands
the call sends to the engine. -/

def CONNECTION_OK : Nat := 0

structure PgConn where
  /-- `PQstatus(conn_)` as cached/observed before any command -/
  status : Nat
  /-- `PQstatus(conn_)` as observed after the ping command was issued -/
  statusAfterPing : Nat

def is_connected (c : PgConn) : Bool × List String :=
  if c.status ≠ CONNECTION_OK then
    (false, [])
  else
    (c.statusAfterPing == CONNECTION_OK, ["/* ping */"])

/-! ## `set_tcp_user_timeout` (session.cpp lines 76-151)

`cstring_to_integer` (from `soci-cstrtoi.h`, repository code outside the
embedded files) is opaque and passed in as `cstrToi`; `none` models a
parse failure.  The platform-specific tail of the function (the
`setsockopt` calls) is beyond a byte-level model; the result
distinguishes only the three outcomes visible to the caller before that
tail runs: an error was thrown for an unparsable value (`.error`), the
value was accepted and silently ignored with no socket operation
(`.ok none`), or the function proceeded to attempt setting the socket
option with the parsed value (`.ok (some t)`). -/

def set_tcp_user_timeout (cstrToi : String → Option Int)
    (timeoutStr : String) : Except String (Option Int) :=
  match cstrToi timeoutStr with
  | none =>
    .error ("Invalid value for tcp_user_timeout connection option: \""
      ++ timeoutStr ++ "\".")
  | some timeoutMs =>
    if timeoutMs = 0 then .ok none
    else if timeoutMs < 0 then .ok none
    else .ok (some timeoutMs)

end Postgresql

end Soci

namespace Soci

namespace Firebird

/-! ## Helper lemmas -/

theorem toShort_eq {n : Nat} (h : n ≤ 32767) : toShort n = (n : Int) := by
  unfold toShort
  have h1 : (n + 32768) % 65536 = n + 32768 := Nat.mod_eq_of_lt (by omega)
  rw [h1]
  push_cast
  ring

/-- Shared concrete record of opaque engine primitives, used to
instantiate theorems at concrete inputs. -/
def fbPrims0 : FbPrims where
  encTimestamp := fun _ => ['E']
  encTime := fun _ => ['t']
  encDate := fun _ => ['d']
  decTimestamp := fun _ => ⟨0, 0, 0, 0, 0, 0⟩
  decTime := fun _ => ⟨0, 0, 0, 0, 0, 0⟩
  decDate := fun _ => ⟨0, 0, 0, 0, 0, 0⟩
  parseDec16 := fun b _ _ => (none, b)
  parseDec32 := fun b _ _ => (none, b)
  parseDec64 := fun b _ _ => (none, b)
  fmtDec16 := fun _ _ => ""
  fmtDec32 := fun _ _ => ""
  fmtDec64 := fun _ _ => ""
  tmBytes := fun _ => []

/-- The fixed-text (`SQL_TEXT`) write branch of `setTextParam`: under the
length check, the buffer becomes the payload, then space padding up to
`sqllen`, then whatever lay beyond the declared length. -/
theorem setTextParam_text_eq (p : FbPrims) (s buf : List Char) (var : XSQLVAR)
    (htype : andNotOne var.sqltype = SQL_TEXT)
    (hsz : s.length ≤ var.sqllen) (hfit : var.sqllen ≤ 32767) :
    setTextParam p s buf var =
      (none, s ++ List.replicate (var.sqllen - s.length) ' ' ++ buf.drop var.sqllen) := by
  have hts : toShort s.length = (s.length : Int) := toShort_eq (le_trans hsz hfit)
  have hne : ¬(SQL_TEXT = SQL_VARYING) := by decide
  unfold setTextParam
  rw [htype]
  simp only [hne, or_false, true_or, or_true, if_true, eq_self_iff_true]
  have hgt : ¬(s.length > var.sqllen) := by omega
  rw [if_neg hgt, if_neg (show ¬False from fun h => h), hts]
  have htoNat : ((s.length : Int)).toNat = s.length := Int.toNat_natCast _
  rw [htoNat, List.take_length]
  by_cases hlt : s.length < var.sqllen
  · rw [if_pos (by exact_mod_cast hlt)]
    unfold writeBytes
    simp only [List.take_zero, List.nil_append, Nat.zero_add, List.length_replicate]
    have h1 : (s ++ buf.drop s.length).take s.length = s :=
      List.take_left s (buf.drop s.length)
    have h2 : (s ++ buf.drop s.length).drop (s.length + (var.sqllen - s.length)) =
        buf.drop var.sqllen := by
      rw [List.drop_append_eq_append_drop,
        List.drop_eq_nil_of_le (by omega), List.nil_append, List.drop_drop]
      rw [show s.length + (s.length + (var.sqllen - s.length) - s.length) = var.sqllen
        from by omega]
    rw [h1, h2]
  · have heq : s.length = var.sqllen := by omega
    rw [if_neg (by exact_mod_cast hlt)]
    unfold writeBytes
    simp only [List.take_zero, List.nil_append, Nat.zero_add]
    rw [show var.sqllen - s.length = 0 from by omega]
    simp [heq]

/-! ## Claim theorems (Firebird) -/

/-- C1: for every text value `s` whose size exceeds the declared length
of a fixed-text (`SQL_TEXT`) or varying-text (`SQL_VARYING`) column,
`setTextParam` fails with the "value too long" conversion error and
returns the host buffer exactly as it was: no byte is written. -/
theorem setTextParam_too_long_no_partial_write (p : FbPrims) (s buf : List Char)
    (var : XSQLVAR)
    (htype : andNotOne var.sqltype = SQL_TEXT ∨ andNotOne var.sqltype = SQL_VARYING)
    (hlen : s.length > var.sqllen) :
    setTextParam p s buf var = (some (tooLongMsg s s.length var.sqllen), buf) := by
  unfold setTextParam
  rcases htype with h | h <;>
    rw [h] <;>
    rw [if_pos (by simp), if_pos hlen]

/-- C1 witness: a 9-byte value in an 8-byte fixed-text column fails with
the "too long" message and leaves the canary buffer untouched. -/
theorem setTextParam_too_long_no_partial_write_witness :
    setTextParam fbPrims0 "hello!!!!".data (List.replicate 8 'X')
        ⟨SQL_TEXT, 8, 0, []⟩ =
      (some (tooLongMsg "hello!!!!".data 9 8), List.replicate 8 'X') :=
  setTextParam_too_long_no_partial_write fbPrims0 "hello!!!!".data
    (List.replicate 8 'X') ⟨SQL_TEXT, 8, 0, []⟩ (Or.inl (by decide)) (by decide)

/-- C2 counterexample: the claim says the timestamp category is given a
slot sized by the engine's native encoded-timestamp representation
(`ISC_TIMESTAMP`), not by the calendar struct; but `allocBuffer` on a
timestamp descriptor returns `sizeof(std::tm)` — the calendar struct's
size — which differs from `sizeof(ISC_TIMESTAMP)`. -/
theorem allocBuffer_timestamp_uses_tm_size :
    allocBuffer ⟨SQL_TIMESTAMP, 100, 0, []⟩ = sizeof_std_tm ∧
      sizeof_std_tm ≠ sizeof_ISC_TIMESTAMP := by
  constructor
  · rfl
  · decide

/-- C2 (amended): `allocBuffer` sizes a varying-text buffer as declared
length plus a fixed-width length marker, a fixed-text buffer as exactly
the declared length, each temporal category as the fixed size of the
calendar struct `std::tm` itself (not the engine's native
encoded-timestamp representation), and every other category as exactly
the declared length. -/
theorem allocBuffer_sizing (var : XSQLVAR) :
    (andNotOne var.sqltype = SQL_VARYING →
      allocBuffer var = var.sqllen + sizeof_short) ∧
    (andNotOne var.sqltype = SQL_TEXT → allocBuffer var = var.sqllen) ∧
    (andNotOne var.sqltype = SQL_TIMESTAMP ∨ andNotOne var.sqltype = SQL_TYPE_TIME ∨
        andNotOne var.sqltype = SQL_TYPE_DATE →
      allocBuffer var = sizeof_std_tm) ∧
    (andNotOne var.sqltype ≠ SQL_VARYING → andNotOne var.sqltype ≠ SQL_TIMESTAMP →
      andNotOne var.sqltype ≠ SQL_TYPE_TIME → andNotOne var.sqltype ≠ SQL_TYPE_DATE →
      allocBuffer var = var.sqllen) := by
  refine ⟨fun h => ?_, fun h => ?_, fun h => ?_, fun h1 h2 h3 h4 => ?_⟩
  · unfold allocBuffer
    rw [h]
    simp
  · unfold allocBuffer
    rw [h]
    simp [SQL_TEXT, SQL_VARYING, SQL_TIMESTAMP, SQL_TYPE_TIME, SQL_TYPE_DATE]
  · unfold allocBuffer
    rcases h with h | h | h <;> rw [h] <;>
      simp [SQL_TEXT, SQL_VARYING, SQL_TIMESTAMP, SQL_TYPE_TIME, SQL_TYPE_DATE]
  · unfold allocBuffer
    rw [if_neg h1, if_neg (by tauto)]

/-- C2 witness: concrete descriptors of each kind get the amended
sizes — varying text of length 10 gets 12 bytes, fixed text of length 10
gets 10, a timestamp gets `sizeof(std::tm)`, and an `SQL_INT64` column of
length 8 gets 8. -/
theorem allocBuffer_sizing_witness :
    allocBuffer ⟨SQL_VARYING, 10, 0, []⟩ = 12 ∧
      allocBuffer ⟨SQL_TEXT, 10, 0, []⟩ = 10 ∧
      allocBuffer ⟨SQL_TIMESTAMP, 100, 0, []⟩ = sizeof_std_tm ∧
      allocBuffer ⟨SQL_INT64, 8, 0, []⟩ = 8 :=
  ⟨(allocBuffer_sizing ⟨SQL_VARYING, 10, 0, []⟩).1 (by decide),
    (allocBuffer_sizing ⟨SQL_TEXT, 10, 0, []⟩).2.1 (by decide),
    (allocBuffer_sizing ⟨SQL_TIMESTAMP, 100, 0, []⟩).2.2.1 (Or.inl (by decide)),
    (allocBuffer_sizing ⟨SQL_INT64, 8, 0, []⟩).2.2.2 (by decide) (by decide)
      (by decide) (by decide)⟩

/-- C3: writing at most `L` bytes into a fixed-text column of declared
length `L` succeeds, and reading the same buffer back with
`getTextParam` yields exactly `L` bytes: the original content as a
prefix, followed by space padding, with the trailing spaces not
stripped.  (`sqllen` is a 16-bit field, whence the `≤ 32767` bound.) -/
theorem setTextParam_getTextParam_fixed_roundtrip (p : FbPrims)
    (s buf : List Char) (var : XSQLVAR)
    (htype : andNotOne var.sqltype = SQL_TEXT)
    (hsz : s.length ≤ var.sqllen) (hfit : var.sqllen ≤ 32767) :
    (setTextParam p s buf var).1 = none ∧
    getTextParam p { var with sqldata := (setTextParam p s buf var).2 } =
      .ok (String.mk (s ++ List.replicate (var.sqllen - s.length) ' ')) ∧
    (s ++ List.replicate (var.sqllen - s.length) ' ').length = var.sqllen ∧
    (s ++ List.replicate (var.sqllen - s.length) ' ').take s.length = s := by
  have hset := setTextParam_text_eq p s buf var htype hsz hfit
  have hlen : (s ++ List.replicate (var.sqllen - s.length) ' ').length = var.sqllen := by
    simp only [List.length_append, List.length_replicate]
    omega
  refine ⟨by rw [hset], ?_, hlen, ?_⟩
  · have htake : ((s ++ List.replicate (var.sqllen - s.length) ' ') ++
        buf.drop var.sqllen).take var.sqllen =
        s ++ List.replicate (var.sqllen - s.length) ' ' := List.take_left' hlen
    rw [hset]
    unfold getTextParam
    rw [htype, if_neg (show ¬(SQL_TEXT = SQL_VARYING) from by decide),
      if_pos rfl]
    dsimp only
    rw [htake]
  · rw [List.take_append_of_le_length (by omega), List.take_length]

/-- C3 witness: writing the 5 bytes `hello` into a fixed-text column of
length 8 and reading back gives `hello` followed by three spaces, 8
bytes in total, with `hello` as the 5-byte front segment. -/
theorem setTextParam_getTextParam_fixed_roundtrip_witness :
    (setTextParam fbPrims0 "hello".data (List.replicate 8 'X')
        ⟨SQL_TEXT, 8, 0, []⟩).1 = none ∧
    getTextParam fbPrims0
        { sqltype := SQL_TEXT, sqllen := 8, sqlscale := 0,
          sqldata := (setTextParam fbPrims0 "hello".data (List.replicate 8 'X')
            ⟨SQL_TEXT, 8, 0, []⟩).2 } =
      .ok (String.mk ("hello".data ++ List.replicate 3 ' ')) ∧
    ("hello".data ++ List.replicate 3 ' ').length = 8 ∧
    ("hello".data ++ List.replicate 3 ' ').take 5 = "hello".data :=
  setTextParam_getTextParam_fixed_roundtrip fbPrims0 "hello".data
    (List.replicate 8 'X') ⟨SQL_TEXT, 8, 0, []⟩ (by decide) (by decide) (by decide)

/-- C4: the temporal text parser of `setTextParam` tries
`"YYYY-MM-DD HH:MM:SS"`, `"YYYY-MM-DDTHH:MM:SS"` and `"YYYY-MM-DD"` in
that order, the first fully matching pattern wins, a date-only match
defaults hour/minute/second to zero, a time-only column accepts
`"HH:MM:SS"`, and when no pattern matches the call fails with the
could-not-parse conversion error, which `setTextParam` surfaces on
timestamp, date and time columns. -/
theorem parseTimestampText_pattern_order (s : List Char) :
    (∀ y mo d h mi se, (runScanf fmtTsSpace s).1 = [y, mo, d, h, mi, se] →
      parseTimestampText s = .ok (mkTmOfScan y mo d h mi se)) ∧
    (∀ y mo d h mi se, (runScanf fmtTsSpace s).1.length ≠ 6 →
      (runScanf fmtTsT s).1 = [y, mo, d, h, mi, se] →
      parseTimestampText s = .ok (mkTmOfScan y mo d h mi se)) ∧
    (∀ y mo d, (runScanf fmtTsSpace s).1.length ≠ 6 →
      (runScanf fmtTsT s).1.length ≠ 6 →
      (runScanf fmtDate s).1 = [y, mo, d] →
      parseTimestampText s = .ok (mkTmOfScan y mo d 0 0 0)) ∧
    ((runScanf fmtTsSpace s).1.length ≠ 6 → (runScanf fmtTsT s).1.length ≠ 6 →
      (runScanf fmtDate s).1.length ≠ 3 →
      parseTimestampText s = .error "Could not parse timestamp value.") ∧
    (∀ h mi se, (runScanf fmtTime s).1 = [h, mi, se] →
      parseTimeText s = .ok ⟨0, 0, 0, (h : Int), (mi : Int), (se : Int)⟩) ∧
    ((runScanf fmtTime s).1.length ≠ 3 →
      parseTimeText s = .error "Could not parse timestamp value.") ∧
    (∀ p buf var e,
      (andNotOne var.sqltype = SQL_TIMESTAMP ∨ andNotOne var.sqltype = SQL_TYPE_DATE) →
      parseTimestampText s = .error e → setTextParam p s buf var = (some e, buf)) ∧
    (∀ p buf var e, andNotOne var.sqltype = SQL_TYPE_TIME →
      parseTimeText s = .error e → setTextParam p s buf var = (some e, buf)) := by
  refine ⟨?_, ?_, ?_, ?_, ?_, ?_, ?_, ?_⟩
  · intro y mo d h mi se hscan
    unfold parseTimestampText
    rw [hscan]
    simp [mkTmOfScan]
  · intro y mo d h mi se h1 hscan
    unfold parseTimestampText
    rw [if_neg h1, hscan]
    simp [mkTmOfScan]
  · intro y mo d h1 h2 hscan
    unfold parseTimestampText
    rw [if_neg h1, if_neg h2, hscan]
    simp [mkTmOfScan]
  · intro h1 h2 h3
    unfold parseTimestampText
    rw [if_neg h1, if_neg h2, if_neg h3]
  · intro h mi se hscan
    unfold parseTimeText
    rw [hscan]
    simp
  · intro h
    unfold parseTimeText
    rw [if_neg h]
  · intro p buf var e htype herr
    unfold setTextParam
    rcases htype with h | h <;>
      rw [h] <;>
      rw [if_neg (by decide), if_neg (by decide), if_neg (by decide),
        if_neg (by decide), if_pos (by simp), herr]
  · intro p buf var e htype herr
    unfold setTextParam
    rw [htype,
      if_neg (by decide), if_neg (by decide), if_neg (by decide),
      if_neg (by decide), if_neg (by decide), if_pos rfl, herr]

/-- C4 witness: `2020-05-03T10:11:12` is rejected by the space-separated
pattern (only the date part matches) and accepted by the `T`-separated
one; `2020-05-03` matches only the date pattern and parses to midnight;
`10:11:12` parses on a time column; `hello` fails every pattern and
`setTextParam` reports the parse error on a timestamp column. -/
theorem parseTimestampText_pattern_order_witness :
    parseTimestampText "2020-05-03T10:11:12".data =
      .ok (mkTmOfScan 2020 5 3 10 11 12) ∧
    parseTimestampText "2020-05-03".data = .ok (mkTmOfScan 2020 5 3 0 0 0) ∧
    parseTimeText "10:11:12".data = .ok ⟨0, 0, 0, 10, 11, 12⟩ ∧
    setTextParam fbPrims0 "hello".data ['X'] ⟨SQL_TIMESTAMP, 8, 0, []⟩ =
      (some "Could not parse timestamp value.", ['X']) :=
  ⟨(parseTimestampText_pattern_order "2020-05-03T10:11:12".data).2.1
      2020 5 3 10 11 12 (by decide) (by decide),
    (parseTimestampText_pattern_order "2020-05-03".data).2.2.1
      2020 5 3 (by decide) (by decide) (by decide),
    (parseTimestampText_pattern_order "10:11:12".data).2.2.2.2.1
      10 11 12 (by decide),
    (parseTimestampText_pattern_order "hello".data).2.2.2.2.2.2.1
      fbPrims0 ['X'] ⟨SQL_TIMESTAMP, 8, 0, []⟩ "Could not parse timestamp value."
      (Or.inl (by decide))
      ((parseTimestampText_pattern_order "hello".data).2.2.2.1
        (by decide) (by decide) (by decide))⟩

/-- C5: `tmEncode` and `tmDecode` fail with the
"Unexpected type of date/time field" conversion error exactly when the
wire category is none of timestamp, date-only or time-only; on the three
recognized temporal kinds both functions succeed. -/
theorem tmEncode_tmDecode_unexpected_type (p : FbPrims) (type : Nat)
    (src : Tm) (bs : List Char) :
    (andNotOne type ≠ SQL_TIMESTAMP → andNotOne type ≠ SQL_TYPE_TIME →
      andNotOne type ≠ SQL_TYPE_DATE →
      tmEncode p type src =
        .error ("Unexpected type of date/time field (" ++ toString type ++ ")") ∧
      tmDecode p type bs =
        .error ("Unexpected type of date/time field (" ++ toString type ++ ")")) ∧
    ((andNotOne type = SQL_TIMESTAMP ∨ andNotOne type = SQL_TYPE_TIME ∨
        andNotOne type = SQL_TYPE_DATE) →
      (∃ enc, tmEncode p type src = .ok enc) ∧
      (∃ t, tmDecode p type bs = .ok t)) := by
  constructor
  · intro h1 h2 h3
    constructor
    · unfold tmEncode
      rw [if_neg h1, if_neg h2, if_neg h3]
    · unfold tmDecode
      rw [if_neg h1, if_neg h2, if_neg h3]
  · intro h
    have he : ∃ enc, tmEncode p type src = .ok enc := by
      unfold tmEncode
      rcases h with h | h | h <;> rw [h] <;>
        simp [SQL_TIMESTAMP, SQL_TYPE_TIME, SQL_TYPE_DATE]
    have hd : ∃ t, tmDecode p type bs = .ok t := by
      unfold tmDecode
      rcases h with h | h | h <;> rw [h] <;>
        simp [SQL_TIMESTAMP, SQL_TYPE_TIME, SQL_TYPE_DATE]
    exact ⟨he, hd⟩

/-- C5 witness: an `SQL_VARYING` (448) descriptor makes both codec
directions fail with the unexpected-type error, while `SQL_TIMESTAMP`
(510) makes both succeed. -/
theorem tmEncode_tmDecode_unexpected_type_witness :
    (tmEncode fbPrims0 SQL_VARYING ⟨0, 0, 0, 0, 0, 0⟩ =
        .error ("Unexpected type of date/time field (" ++ toString SQL_VARYING ++ ")") ∧
      tmDecode fbPrims0 SQL_VARYING [] =
        .error ("Unexpected type of date/time field (" ++ toString SQL_VARYING ++ ")")) ∧
    ((∃ enc, tmEncode fbPrims0 SQL_TIMESTAMP ⟨0, 0, 0, 0, 0, 0⟩ = .ok enc) ∧
      (∃ t, tmDecode fbPrims0 SQL_TIMESTAMP [] = .ok t)) :=
  ⟨(tmEncode_tmDecode_unexpected_type fbPrims0 SQL_VARYING ⟨0, 0, 0, 0, 0, 0⟩ []).1
      (by decide) (by decide) (by decide),
    (tmEncode_tmDecode_unexpected_type fbPrims0 SQL_TIMESTAMP ⟨0, 0, 0, 0, 0, 0⟩ []).2
      (Or.inl (by decide))⟩

/-- C7: `copy_from_blob` fails with the "read N bytes instead of
expected M" conversion error whenever the engine delivers fewer bytes
than the large object's declared total length, and succeeds with the
full content when the counts agree. -/
theorem copy_from_blob_no_silent_truncation (b : FbBlob) :
    (b.delivered.length < b.getLen →
      copy_from_blob b =
        .error ("Read " ++ toString b.delivered.length ++
          " bytes instead of expected " ++ toString b.getLen ++
          " from Firebird text blob object")) ∧
    (b.delivered.length = b.getLen →
      copy_from_blob b = .ok (String.mk b.delivered)) := by
  constructor
  · intro h
    unfold copy_from_blob
    rw [if_pos (Nat.ne_of_lt h)]
  · intro h
    unfold copy_from_blob writeBytes
    rw [if_neg (by omega)]
    simp only [List.take_zero, List.nil_append, Nat.zero_add, h,
      List.drop_replicate, Nat.sub_self, List.replicate_zero, List.append_nil]
    rw [← h, List.take_length]

/-- C7 witness: a blob declared 5 bytes long that delivers only 3 bytes
fails with the exact mismatch message; one that delivers all 3 of its 3
declared bytes round-trips. -/
theorem copy_from_blob_no_silent_truncation_witness :
    copy_from_blob ⟨5, "abc".data⟩ =
      .error "Read 3 bytes instead of expected 5 from Firebird text blob object" ∧
    copy_from_blob ⟨3, "abc".data⟩ = .ok (String.mk "abc".data) :=
  ⟨(copy_from_blob_no_silent_truncation ⟨5, "abc".data⟩).1 (by decide),
    (copy_from_blob_no_silent_truncation ⟨3, "abc".data⟩).2 (by decide)⟩

end Firebird

namespace Postgresql

/-! ## Claim theorems (PostgreSQL) -/

/-- C6: in the search-path tokenizer a quote character toggles the
quoted mode; while quoted, comma and space are appended as literal
characters instead of acting as delimiters, and the input `"a,b", c`
tokenizes to exactly the two ordered entries `a,b` and `c`. -/
theorem tokenizeSearchPath_quoted_mode :
    (∀ schema acc c, c ≠ '"' →
      schemaStep true schema acc c = (true, schema ++ [c], acc)) ∧
    (∀ quoted schema acc,
      schemaStep quoted schema acc '"' = (!quoted, schema, acc)) ∧
    (tokenizeSearchPath "\"a,b\", c".data).map String.mk = ["a,b", "c"] := by
  refine ⟨?_, ?_, by decide⟩
  · intro schema acc c hc
    unfold schemaStep
    rw [if_neg hc, if_neg (by simp)]
  · intro quoted schema acc
    unfold schemaStep
    rw [if_pos rfl]

/-- C6 witness: in quoted mode a comma and a space are appended
literally rather than treated as delimiters. -/
theorem tokenizeSearchPath_quoted_mode_witness :
    schemaStep true "a".data [] ',' = (true, "a,".data, []) ∧
    schemaStep true "a".data [] ' ' = (true, "a ".data, []) :=
  ⟨tokenizeSearchPath_quoted_mode.1 "a".data [] ',' (by decide),
    tokenizeSearchPath_quoted_mode.1 "a".data [] ' ' (by decide)⟩

/-- C8: when the cached libpq status is not `CONNECTION_OK`,
`is_connected` returns `false` without issuing any command; otherwise it
issues exactly the one no-op command `/* ping */` and returns whether
the re-checked status is OK afterwards — in particular a cached-OK
status with a failed re-check still yields `false`. -/
theorem is_connected_pings_before_trusting (c : PgConn) :
    (c.status ≠ CONNECTION_OK → is_connected c = (false, [])) ∧
    (c.status = CONNECTION_OK →
      is_connected c = ((c.statusAfterPing == CONNECTION_OK), ["/* ping */"])) ∧
    (c.status = CONNECTION_OK → c.statusAfterPing ≠ CONNECTION_OK →
      (is_connected c).1 = false) := by
  refine ⟨fun h => ?_, fun h => ?_, fun h h2 => ?_⟩
  · unfold is_connected
    rw [if_pos h]
  · unfold is_connected
    rw [if_neg (by simp [h])]
  · unfold is_connected
    rw [if_neg (by simp [h])]
    simpa using h2

/-- C8 witness: status `CONNECTION_BAD` (1) short-circuits to `false`
with no command; cached-OK with OK after the ping gives `true` after
exactly one ping; cached-OK whose ping leaves a bad status gives
`false`. -/
theorem is_connected_pings_before_trusting_witness :
    is_connected ⟨1, 0⟩ = (false, []) ∧
    is_connected ⟨0, 0⟩ = (true, ["/* ping */"]) ∧
    (is_connected ⟨0, 1⟩).1 = false :=
  ⟨(is_connected_pings_before_trusting ⟨1, 0⟩).1 (by decide),
    (is_connected_pings_before_trusting ⟨0, 0⟩).2.1 (by decide),
    (is_connected_pings_before_trusting ⟨0, 1⟩).2.2 (by decide) (by decide)⟩

/-- C9: every `tcp_user_timeout` option value that parses as zero or as
a negative integer is accepted and silently ignored:
`set_tcp_user_timeout` returns without error and without attempting any
socket operation. -/
theorem set_tcp_user_timeout_ignores_nonpositive (cstrToi : String → Option Int)
    (timeoutStr : String) (v : Int) (hparse : cstrToi timeoutStr = some v)
    (hnp : v ≤ 0) :
    set_tcp_user_timeout cstrToi timeoutStr = .ok none := by
  by_cases h0 : v = 0
  · simp [set_tcp_user_timeout, hparse, h0]
  · simp [set_tcp_user_timeout, hparse, h0, show v < 0 from by omega]

/-- C9 witness: a parser mapping `-7` to the integer -7 (a negative
value) makes the call return successfully with no socket action, and
likewise for `0`. -/
theorem set_tcp_user_timeout_ignores_nonpositive_witness :
    set_tcp_user_timeout (fun t => if t = "-7" then some (-7) else some 0) "-7" =
      .ok none ∧
    set_tcp_user_timeout (fun t => if t = "-7" then some (-7) else some 0) "0" =
      .ok none :=
  ⟨set_tcp_user_timeout_ignores_nonpositive _ "-7" (-7) (by decide) (by decide),
    set_tcp_user_timeout_ignores_nonpositive _ "0" 0 (by decide) (by decide)⟩

/-- C10: when the engine reports an empty search path,
`get_schema_names` falls back to the default `"$user", public` before
tokenizing, so the result is the quoted current user name followed by
the quoted identifier `public` — not an empty list. -/
theorem get_schema_names_empty_default (u : String)
    (esc : String → Option String) :
    get_schema_names "" (some u) esc = [quote esc u, quote esc "public"] := by
  have htok : (tokenizeSearchPath ("\"$user\", public" : String).data).map String.mk =
      ["$user", "public"] := by decide
  unfold get_schema_names
  rw [if_pos (by decide)]
  dsimp only
  rw [htok]
  simp only [List.map_cons, List.map_nil]
  rw [if_pos trivial, if_neg (by decide)]

end Postgresql

end Soci
